import Mathlib

/-!
Shallow embedding of the Movie-poster-bot repository
(src/telegram_bot.py, src/Bot.py, src/app.py).

Python strings are modelled as Lean `String` (sequences of unicode
scalar values, matching Python code-point indexing); Python `dict`s of
query parameters as association lists with first-occurrence lookup and
in-place-update semantics; Python `None` as `Option.none`.  The numeric
catalog fields (`vote_average`, `popularity`) only ever flow into
f-string interpolation, so they are modelled by their rendered string.
Network and photo-delivery outcomes are oracles passed in explicitly;
each handler returns the ordered list of outbound effects it performed
together with `some e` when it raised an uncaught Python exception.
-/

/-- A movie object from the catalog JSON: the six keys consumed by
`format_movie_message`, each possibly absent. -/
structure MovieRecord where
  title : Option String
  release_date : Option String
  vote_average : Option String
  overview : Option String
  popularity : Option String
  poster_path : Option String
deriving DecidableEq

/-- A decoded catalog response body: a JSON object whose `results` key,
when present, holds a list of movie objects. -/
structure Payload where
  results : Option (List MovieRecord)
deriving DecidableEq

/-- An outbound reply to the chat: `send_photo`/`reply_photo` with a
caption, or `send_message`/`reply_text` with a body. -/
inductive Reply where
  | photo (chatId : Nat) (url caption : String)
  | text (chatId : Nat) (body : String)
deriving DecidableEq

/-- One observable action of a handler, in program order. -/
inductive Effect where
  | answerCallback
  | typing (chatId : Nat)
  | fetch (endpoint : String) (params : List (String × String))
  | reply (r : Reply)
deriving DecidableEq

/-- An uncaught Python exception escaping a handler. -/
inductive PyErr where
  | attributeError
  | invalidToken
deriving DecidableEq

/-- `update.message`, reduced to the field the handlers read. -/
structure Message where
  chatId : Nat
deriving DecidableEq

/-- `update.callback_query`, reduced to the fields the handlers read
(`query.message.chat_id` and `query.data`). -/
structure CallbackQuery where
  chatId : Nat
  tag : String
deriving DecidableEq

/-- An inbound Telegram update: a typed command carries `message`, a
button tap carries `callbackQuery`. -/
structure Update where
  message : Option Message
  callbackQuery : Option CallbackQuery
deriving DecidableEq

/-- The outcome of the HTTP GET in `get_movies`: `none` models any
`requests.exceptions.RequestException` (caught there, logged, and
returned as Python `None`), `some p` a decoded JSON body. -/
def NetOracle : Type := String → List (String × String) → Option Payload

/-- Python slicing `s[:n]` (by code point). -/
def pySlice (s : String) (n : Nat) : String :=
  String.mk (s.data.take n)

/-- Python `d[k] = v` on one binding of an association-list dict:
replace the value at the first occurrence of the key, else append. -/
def updOne : List (String × String) → String × String → List (String × String)
  | [], kv => [kv]
  | e :: rest, kv => if e.1 = kv.1 then (e.1, kv.2) :: rest else e :: updOne rest kv

/-- Python `d.update(ps)`: fold `updOne` over the caller pairs. -/
def dictUpdate (d ps : List (String × String)) : List (String × String) :=
  ps.foldl updOne d

/-- Python `d[k]` / `k in d`: first-occurrence association lookup. -/
def pyLookup (k : String) : List (String × String) → Option String
  | [] => none
  | e :: rest => if e.1 = k then some e.2 else pyLookup k rest

/-- `default_params` of `get_movies` (telegram_bot.py lines 55-58). -/
def defaultParams (apiKey : String) : List (String × String) :=
  [("api_key", apiKey), ("language", "en-US")]

/-- The query mapping actually sent by `get_movies` (telegram_bot.py
lines 52-63): `default_params.update(params)` when `params` is truthy. -/
def mergedParams (apiKey : String) (params : Option (List (String × String))) :
    List (String × String) :=
  match params with
  | none => defaultParams apiKey
  | some ps => if ps.isEmpty then defaultParams apiKey else dictUpdate (defaultParams apiKey) ps

/-- `get_movies`: send the merged query to the endpoint and return the
decoded body, or `none` on any transport failure. -/
def get_movies (net : NetOracle) (apiKey : String) (endpoint : String)
    (params : Option (List (String × String))) : Option Payload :=
  net endpoint (mergedParams apiKey params)

/-- `self.image_base_url` (telegram_bot.py line 18). -/
def imageBaseUrl : String := "https://image.tmdb.org/t/p/w500"

/-- The `"..."` appended to a long overview (telegram_bot.py line 80). -/
def truncMarker : String := "..."

/-- The overview-truncation block of `format_movie_message`
(telegram_bot.py lines 78-80): `overview[:400] + "..."` when
`len(overview) > 400`. -/
def truncateOverview (o : String) : String :=
  if 400 < o.length then pySlice o 400 ++ truncMarker else o

/-- The f-string template of `format_movie_message` (telegram_bot.py
lines 82-91), applied to the already-defaulted field strings. -/
def messageText (title release_date rating popularity overview : String) : String :=
  "\n🎬 <b>" ++ title ++ "</b>\n\n📅 <b>Release Date:</b> " ++ release_date ++
  "\n⭐ <b>Rating:</b> " ++ rating ++ "/10\n🔥 <b>Popularity:</b> " ++ popularity ++
  "\n\n📖 <b>Description:</b>\n" ++ overview ++ "\n        "

/-- `format_movie_message` (telegram_bot.py lines 70-98): per-field
defaults via `movie.get`, overview truncation, and the optional poster
URL `image_base_url + poster_path`. -/
def format_movie_message (m : MovieRecord) : String × Option String :=
  let title := m.title.getD "N/A"
  let release_date := m.release_date.getD "TBA"
  let rating := m.vote_average.getD "N/A"
  let overview0 := m.overview.getD "No description available."
  let popularity := m.popularity.getD "N/A"
  let overview := truncateOverview overview0
  let message := messageText title release_date rating popularity overview
  match m.poster_path with
  | some pp => (message, some (imageBaseUrl ++ pp))
  | none => (message, none)

/-- The per-movie reply of the dispatch loop body (telegram_bot.py lines
120-142): photo-with-caption when a poster URL exists and `send_photo`
succeeds (oracle `photoOk`), otherwise one plain-text reply with the
same formatted body. -/
def movieReply (chatId : Nat) (photoOk : MovieRecord → Bool) (m : MovieRecord) : Reply :=
  match format_movie_message m with
  | (message, some url) =>
      if photoOk m then Reply.photo chatId url message else Reply.text chatId message
  | (message, none) => Reply.text chatId message

/-- `send_error_message` body (telegram_bot.py lines 266-269). -/
def errorText : String :=
  "❌ Sorry, I couldn\x27t fetch movie data at the moment. Please try again later."

/-- The response-emission block duplicated verbatim in
`send_latest_movies`, `send_trending_movies` and `send_upcoming_movies`
(telegram_bot.py lines 114-142, 153-181, 192-220): error reply when the
fetch returned `None` or the body has no `results` key, otherwise one
reply per movie of `data["results"][:5]`. -/
def replyWithMovies (chatId : Nat) (photoOk : MovieRecord → Bool)
    (data : Option Payload) : List Effect :=
  match data with
  | none => [Effect.reply (Reply.text chatId errorText)]
  | some p =>
    match p.results with
    | none => [Effect.reply (Reply.text chatId errorText)]
    | some l => (l.take 5).map (fun m => Effect.reply (movieReply chatId photoOk m))

/-- `send_latest_movies` (telegram_bot.py lines 100-142): works from a
button tap (answers the callback) or from a typed command (uses
`update.message.chat_id`); signals typing, fetches `movie/now_playing`
page 1, then runs the shared emission block. -/
def send_latest_movies (apiKey : String) (u : Update) (net : NetOracle)
    (photoOk : MovieRecord → Bool) : List Effect × Option PyErr :=
  match u.callbackQuery with
  | some q =>
    let ps := mergedParams apiKey (some [("page", "1")])
    (Effect.answerCallback :: Effect.typing q.chatId :: Effect.fetch "movie/now_playing" ps ::
      replyWithMovies q.chatId photoOk (net "movie/now_playing" ps), none)
  | none =>
    match u.message with
    | none => ([], some PyErr.attributeError)
    | some msg =>
      let ps := mergedParams apiKey (some [("page", "1")])
      (Effect.typing msg.chatId :: Effect.fetch "movie/now_playing" ps ::
        replyWithMovies msg.chatId photoOk (net "movie/now_playing" ps), none)

/-- `send_trending_movies` (telegram_bot.py lines 144-181):
unconditionally dereferences `update.callback_query`, so a typed
`/trending` command (where it is `None`) raises `AttributeError` before
any typing signal or fetch. -/
def send_trending_movies (apiKey : String) (u : Update) (net : NetOracle)
    (photoOk : MovieRecord → Bool) : List Effect × Option PyErr :=
  match u.callbackQuery with
  | none => ([], some PyErr.attributeError)
  | some q =>
    let ps := mergedParams apiKey none
    (Effect.answerCallback :: Effect.typing q.chatId :: Effect.fetch "trending/movie/week" ps ::
      replyWithMovies q.chatId photoOk (net "trending/movie/week" ps), none)

/-- `send_upcoming_movies` (telegram_bot.py lines 183-220): same shape
as `send_trending_movies`, endpoint `movie/upcoming`. -/
def send_upcoming_movies (apiKey : String) (u : Update) (net : NetOracle)
    (photoOk : MovieRecord → Bool) : List Effect × Option PyErr :=
  match u.callbackQuery with
  | none => ([], some PyErr.attributeError)
  | some q =>
    let ps := mergedParams apiKey none
    (Effect.answerCallback :: Effect.typing q.chatId :: Effect.fetch "movie/upcoming" ps ::
      replyWithMovies q.chatId photoOk (net "movie/upcoming" ps), none)

/-- The `/search` usage prompt (telegram_bot.py line 225). -/
def searchPrompt : String := "Please provide a movie name. Example: /search Avengers"

/-- The no-results reply of `search_movie` (telegram_bot.py line 234). -/
def noMoviesText (q : String) : String := "No movies found for \x27" ++ q ++ "\x27"

/-- `search_movie` (telegram_bot.py lines 222-250): prompt and return
when `context.args` is empty (no network call); otherwise fetch
`search/movie` with the joined query; on fetch failure, missing
`results` key, or empty results list reply "No movies found"; otherwise
reply for the first result only. -/
def search_movie (apiKey : String) (u : Update) (args : List String) (net : NetOracle)
    (photoOk : MovieRecord → Bool) : List Effect × Option PyErr :=
  if args.isEmpty then
    match u.message with
    | none => ([], some PyErr.attributeError)
    | some msg => ([Effect.reply (Reply.text msg.chatId searchPrompt)], none)
  else
    match u.message with
    | none => ([], some PyErr.attributeError)
    | some msg =>
      let movie_name := String.intercalate " " args
      let ps := mergedParams apiKey (some [("query", movie_name)])
      let pre := [Effect.typing msg.chatId, Effect.fetch "search/movie" ps]
      match net "search/movie" ps with
      | none => (pre ++ [Effect.reply (Reply.text msg.chatId (noMoviesText movie_name))], none)
      | some p =>
        match p.results with
        | none => (pre ++ [Effect.reply (Reply.text msg.chatId (noMoviesText movie_name))], none)
        | some [] => (pre ++ [Effect.reply (Reply.text msg.chatId (noMoviesText movie_name))], none)
        | some (m :: _) => (pre ++ [Effect.reply (movieReply msg.chatId photoOk m)], none)

/-- Python truthiness of an environment value: `not x` holds for `None`
and for the empty string. -/
def pyFalsy (o : Option String) : Bool :=
  o.isNone || o == some ""

/-- The handlers registered by `setup_handlers` (telegram_bot.py lines
295-303) and, identically, by `main` in Bot.py lines 316-322. -/
def setupHandlers : List String :=
  ["start", "latest", "trending", "upcoming", "search", "help", "button_handler"]

/-- `main` of Bot.py (lines 303-326): returns the list of handlers it
registers — empty (early return, no application built, no polling) when
`BOT_TOKEN` or `TMDB_API_KEY` is falsy in the environment. -/
def mainBot (env : String → Option String) : List String :=
  if pyFalsy (env "BOT_TOKEN") || pyFalsy (env "TMDB_API_KEY") then []
  else setupHandlers

/-- Module-level initialization of app.py (lines 9-15): builds the
application from `BOT_TOKEN` and registers the handlers via
`setup_handlers`, with no credential check of its own.  The platform
client (`Application.builder().token(...).build()`, an external
collaborator per the spec) rejects an absent/empty bot token, modelled
as `invalidToken`; nothing inspects `TMDB_API_KEY`. -/
def appInit (env : String → Option String) : Except PyErr (List String) :=
  if pyFalsy (env "BOT_TOKEN") then Except.error PyErr.invalidToken
  else Except.ok setupHandlers

/-- The outbound replies among a handler trace, in order. -/
def repliesOf (es : List Effect) : List Reply :=
  es.filterMap fun e =>
    match e with
    | Effect.reply r => some r
    | _ => none

/-- The catalog network calls among a handler trace, in order. -/
def fetchesOf (es : List Effect) : List (String × List (String × String)) :=
  es.filterMap fun e =>
    match e with
    | Effect.fetch ep ps => some (ep, ps)
    | _ => none

/-! ### Helper lemmas about the traces -/

@[simp] theorem repliesOf_nil : repliesOf [] = [] := rfl

@[simp] theorem repliesOf_cons_answer (es : List Effect) :
    repliesOf (Effect.answerCallback :: es) = repliesOf es := rfl

@[simp] theorem repliesOf_cons_typing (c : Nat) (es : List Effect) :
    repliesOf (Effect.typing c :: es) = repliesOf es := rfl

@[simp] theorem repliesOf_cons_fetch (ep : String) (ps : List (String × String))
    (es : List Effect) : repliesOf (Effect.fetch ep ps :: es) = repliesOf es := rfl

@[simp] theorem repliesOf_cons_reply (r : Reply) (es : List Effect) :
    repliesOf (Effect.reply r :: es) = r :: repliesOf es := rfl

@[simp] theorem repliesOf_append (as bs : List Effect) :
    repliesOf (as ++ bs) = repliesOf as ++ repliesOf bs := by
  simp [repliesOf, List.filterMap_append]

@[simp] theorem repliesOf_map_reply {α : Type} (f : α → Reply) (l : List α) :
    repliesOf (l.map fun x => Effect.reply (f x)) = l.map f := by
  induction l with
  | nil => rfl
  | cons a l ih => simpa [repliesOf, List.filterMap_cons] using ih

@[simp] theorem repliesOf_take_map_reply {α : Type} (n : Nat) (f : α → Reply) (l : List α) :
    repliesOf ((l.map fun x => Effect.reply (f x)).take n) = (l.map f).take n := by
  induction l generalizing n with
  | nil => simp
  | cons a l ih =>
    cases n with
    | zero => simp [repliesOf]
    | succ n => simp [List.take_succ_cons, ih]

@[simp] theorem fetchesOf_nil : fetchesOf [] = [] := rfl

@[simp] theorem fetchesOf_cons_answer (es : List Effect) :
    fetchesOf (Effect.answerCallback :: es) = fetchesOf es := rfl

@[simp] theorem fetchesOf_cons_typing (c : Nat) (es : List Effect) :
    fetchesOf (Effect.typing c :: es) = fetchesOf es := rfl

@[simp] theorem fetchesOf_cons_fetch (ep : String) (ps : List (String × String))
    (es : List Effect) : fetchesOf (Effect.fetch ep ps :: es) = (ep, ps) :: fetchesOf es := rfl

@[simp] theorem fetchesOf_cons_reply (r : Reply) (es : List Effect) :
    fetchesOf (Effect.reply r :: es) = fetchesOf es := rfl

@[simp] theorem fetchesOf_append (as bs : List Effect) :
    fetchesOf (as ++ bs) = fetchesOf as ++ fetchesOf bs := by
  simp [fetchesOf, List.filterMap_append]

@[simp] theorem fetchesOf_map_reply {α : Type} (f : α → Reply) (l : List α) :
    fetchesOf (l.map fun x => Effect.reply (f x)) = [] := by
  induction l with
  | nil => rfl
  | cons a l ih => simp [fetchesOf, List.filterMap_cons]

/-! ### Helper lemmas about the parameter-dict merge -/

theorem pyLookup_updOne_ne (d : List (String × String)) (kv : String × String) (k : String)
    (h : ¬ kv.1 = k) : pyLookup k (updOne d kv) = pyLookup k d := by
  induction d with
  | nil => simp [updOne, pyLookup, h]
  | cons e rest ih =>
    by_cases he : e.1 = kv.1
    · simp [updOne, he, pyLookup, h]
    · simp [updOne, he, pyLookup, ih]

theorem pyLookup_updOne_eq (d : List (String × String)) (kv : String × String) (k : String)
    (h : kv.1 = k) : pyLookup k (updOne d kv) = some kv.2 := by
  induction d with
  | nil => simp [updOne, pyLookup, h]
  | cons e rest ih =>
    by_cases he : e.1 = kv.1
    · simp [updOne, he, pyLookup, h]
    · have he2 : ¬ e.1 = k := by rw [← h]; exact he
      simp [updOne, he, pyLookup, he2, ih]

theorem isSome_pyLookup_updOne (d : List (String × String)) (kv : String × String) (k : String)
    (h : (pyLookup k d).isSome = true) : (pyLookup k (updOne d kv)).isSome = true := by
  by_cases hk : kv.1 = k
  · rw [pyLookup_updOne_eq d kv k hk]; rfl
  · rw [pyLookup_updOne_ne d kv k hk]; exact h

theorem pyLookup_dictUpdate_notBound (ps d : List (String × String)) (k : String)
    (h : ∀ kv ∈ ps, ¬ kv.1 = k) : pyLookup k (dictUpdate d ps) = pyLookup k d := by
  induction ps generalizing d with
  | nil => rfl
  | cons kv ps ih =>
    have h1 : ¬ kv.1 = k := h kv (by simp)
    have h2 : ∀ kv2 ∈ ps, ¬ kv2.1 = k := fun kv2 hm => h kv2 (by simp [hm])
    calc pyLookup k (dictUpdate d (kv :: ps))
        = pyLookup k (dictUpdate (updOne d kv) ps) := rfl
      _ = pyLookup k (updOne d kv) := ih (updOne d kv) h2
      _ = pyLookup k d := pyLookup_updOne_ne d kv k h1

theorem isSome_pyLookup_dictUpdate (ps d : List (String × String)) (k : String)
    (h : (pyLookup k d).isSome = true) :
    (pyLookup k (dictUpdate d ps)).isSome = true := by
  induction ps generalizing d with
  | nil => exact h
  | cons kv ps ih => exact ih (updOne d kv) (isSome_pyLookup_updOne d kv k h)

theorem pyLookup_defaultParams_api (apiKey : String) :
    pyLookup "api_key" (defaultParams apiKey) = some apiKey := by
  simp [defaultParams, pyLookup]

theorem pyLookup_defaultParams_lang (apiKey : String) :
    pyLookup "language" (defaultParams apiKey) = some "en-US" := by
  simp [defaultParams, pyLookup, show ¬("api_key" : String) = "language" by decide]

/-! ### C1 -/

/-- C1, corrected form: the query sent by `get_movies` always binds the
credential key `api_key` and the locale key `language`; when the
caller-supplied params do not themselves bind one of those keys, its
value equals the configured credential (resp. the fixed locale
`en-US`).  (A caller binding `api_key` or `language` overrides the
default, because `dict.update` merges caller values over defaults.) -/
theorem c1_credential_merge (apiKey : String) (ps : Option (List (String × String))) :
    (pyLookup "api_key" (mergedParams apiKey ps)).isSome = true ∧
    (pyLookup "language" (mergedParams apiKey ps)).isSome = true ∧
    ((∀ kv ∈ ps.getD [], ¬ kv.1 = "api_key") →
      pyLookup "api_key" (mergedParams apiKey ps) = some apiKey) ∧
    ((∀ kv ∈ ps.getD [], ¬ kv.1 = "language") →
      pyLookup "language" (mergedParams apiKey ps) = some "en-US") := by
  match ps with
  | none =>
    refine ⟨?_, ?_, fun _ => ?_, fun _ => ?_⟩ <;>
      simp [mergedParams, pyLookup_defaultParams_api, pyLookup_defaultParams_lang]
  | some l =>
    by_cases hl : l.isEmpty
    · refine ⟨?_, ?_, fun _ => ?_, fun _ => ?_⟩ <;>
        simp [mergedParams, hl, pyLookup_defaultParams_api, pyLookup_defaultParams_lang]
    · have hm : mergedParams apiKey (some l) = dictUpdate (defaultParams apiKey) l := by
        simp [mergedParams, hl]
      refine ⟨?_, ?_, fun h => ?_, fun h => ?_⟩
      · rw [hm]
        exact isSome_pyLookup_dictUpdate l (defaultParams apiKey) "api_key"
          (by rw [pyLookup_defaultParams_api]; rfl)
      · rw [hm]
        exact isSome_pyLookup_dictUpdate l (defaultParams apiKey) "language"
          (by rw [pyLookup_defaultParams_lang]; rfl)
      · rw [hm]
        rw [pyLookup_dictUpdate_notBound l (defaultParams apiKey) "api_key" (by simpa using h)]
        exact pyLookup_defaultParams_api apiKey
      · rw [hm]
        rw [pyLookup_dictUpdate_notBound l (defaultParams apiKey) "language" (by simpa using h)]
        exact pyLookup_defaultParams_lang apiKey

/-- Witness for `c1_credential_merge` at the concrete call made by
`send_latest_movies` (`params = {page: 1}`). -/
theorem c1_credential_merge_witness :
    pyLookup "api_key" (mergedParams "secret" (some [("page", "1")])) = some "secret" ∧
    pyLookup "language" (mergedParams "secret" (some [("page", "1")])) = some "en-US" := by
  have h := c1_credential_merge "secret" (some [("page", "1")])
  exact ⟨h.2.2.1 (by decide), h.2.2.2 (by decide)⟩

/-- C1, counterexample to the claim as stated: a caller params mapping
that itself binds the credential key makes `dict.update` send the
caller value, not the configured credential. -/
theorem c1_counterexample :
    pyLookup "api_key" (mergedParams "secret" (some [("api_key", "evil")])) = some "evil" ∧
    ¬ ("evil" : String) = "secret" := by decide

/-! ### C2 -/

/-- C2: evaluating `send_trending_movies` and `send_upcoming_movies` on
an update that arrived as a typed command (message present, no callback
query) shows the handler raising `AttributeError` on
`update.callback_query.answer()` — no typing signal, no catalog query,
no reply — although both are registered as command handlers and
advertised in the /start and /help texts. -/
theorem c2_typed_command_crash :
    send_trending_movies "key" { message := some ⟨7⟩, callbackQuery := none }
        (fun _ _ => some ⟨some []⟩) (fun _ => true) = ([], some PyErr.attributeError) ∧
    send_upcoming_movies "key" { message := some ⟨7⟩, callbackQuery := none }
        (fun _ _ => some ⟨some []⟩) (fun _ => true) = ([], some PyErr.attributeError) :=
  ⟨rfl, rfl⟩

/-! ### C3 -/

/-- C3, counterexample to the claim as stated: for the data-bearing
intent `search`, a catalog fetch yielding `CatalogError` emits one
reply, but it is the no-movies-found reply, not the generic
fetch-failure message. -/
theorem c3_counterexample :
    repliesOf (search_movie "key" { message := some ⟨5⟩, callbackQuery := none } ["Avengers"]
        (fun _ _ => none) (fun _ => true)).1 = [Reply.text 5 (noMoviesText "Avengers")] ∧
    ¬ noMoviesText "Avengers" = errorText := by decide

/-- C3, amended: on `CatalogError` (fetch returns `None`) or a payload
with no results list, each dispatcher emits exactly one outbound reply
and terminates without any movie reply — for latest/trending/upcoming
that reply is the generic fetch-failure message, while for search it is
the no-movies-found reply. -/
theorem c3_error_reply (apiKey : String) (chat : Nat) (photoOk : MovieRecord → Bool)
    (res : Option Payload) (h : res = none ∨ res = some ⟨none⟩)
    (args : List String) (ha : ¬ args = []) :
    (repliesOf (send_latest_movies apiKey ⟨some ⟨chat⟩, none⟩ (fun _ _ => res) photoOk).1
        = [Reply.text chat errorText] ∧
      (send_latest_movies apiKey ⟨some ⟨chat⟩, none⟩ (fun _ _ => res) photoOk).2 = none) ∧
    (repliesOf (send_trending_movies apiKey ⟨none, some ⟨chat, "trending"⟩⟩
          (fun _ _ => res) photoOk).1 = [Reply.text chat errorText] ∧
      (send_trending_movies apiKey ⟨none, some ⟨chat, "trending"⟩⟩
          (fun _ _ => res) photoOk).2 = none) ∧
    (repliesOf (send_upcoming_movies apiKey ⟨none, some ⟨chat, "upcoming"⟩⟩
          (fun _ _ => res) photoOk).1 = [Reply.text chat errorText] ∧
      (send_upcoming_movies apiKey ⟨none, some ⟨chat, "upcoming"⟩⟩
          (fun _ _ => res) photoOk).2 = none) ∧
    (repliesOf (search_movie apiKey ⟨some ⟨chat⟩, none⟩ args (fun _ _ => res) photoOk).1
        = [Reply.text chat (noMoviesText (String.intercalate " " args))] ∧
      (search_movie apiKey ⟨some ⟨chat⟩, none⟩ args (fun _ _ => res) photoOk).2 = none) := by
  match args, ha with
  | a :: as, _ =>
    rcases h with h | h <;> subst h <;>
      refine ⟨⟨?_, ?_⟩, ⟨?_, ?_⟩, ⟨?_, ?_⟩, ⟨?_, ?_⟩⟩ <;>
      simp [send_latest_movies, send_trending_movies, send_upcoming_movies, search_movie,
        replyWithMovies]

/-- Witness for `c3_error_reply`: a `CatalogError` on a latest dispatch
from chat 3 yields exactly the generic error reply. -/
theorem c3_error_reply_witness :
    repliesOf (send_latest_movies "key" ⟨some ⟨3⟩, none⟩ (fun _ _ => none)
        (fun _ => true)).1 = [Reply.text 3 errorText] ∧
    repliesOf (search_movie "key" ⟨some ⟨3⟩, none⟩ ["Dune"] (fun _ _ => none)
        (fun _ => true)).1 = [Reply.text 3 (noMoviesText (String.intercalate " " ["Dune"]))] := by
  have h := c3_error_reply "key" 3 (fun _ => true) none (Or.inl rfl) ["Dune"] (by decide)
  exact ⟨h.1.1, h.2.2.2.1⟩

/-! ### C4 -/

/-- C4: each record selected by the dispatcher yields exactly one
outbound reply (the reply list maps the selected records one-to-one,
never zero and never two per record); per record the reply is a
photo-with-caption when the formatter yields an image URL and the
delivery oracle succeeds, and otherwise a single plain-text reply
carrying the same formatted body. -/
theorem c4_one_reply_per_record (apiKey : String) (chat : Nat) (photoOk : MovieRecord → Bool)
    (l : List MovieRecord) :
    repliesOf (send_latest_movies apiKey ⟨some ⟨chat⟩, none⟩
        (fun _ _ => some ⟨some l⟩) photoOk).1 = (l.take 5).map (movieReply chat photoOk) ∧
    (∀ m : MovieRecord, (format_movie_message m).2 = none →
        movieReply chat photoOk m = Reply.text chat (format_movie_message m).1) ∧
    (∀ m : MovieRecord, ∀ url : String, (format_movie_message m).2 = some url →
        photoOk m = true →
        movieReply chat photoOk m = Reply.photo chat url (format_movie_message m).1) ∧
    (∀ m : MovieRecord, ∀ url : String, (format_movie_message m).2 = some url →
        photoOk m = false →
        movieReply chat photoOk m = Reply.text chat (format_movie_message m).1) := by
  refine ⟨?_, ?_, ?_, ?_⟩
  · simp [send_latest_movies, replyWithMovies]
  · intro m hm
    unfold movieReply
    rcases hfm : format_movie_message m with ⟨msg, p⟩
    rw [hfm] at hm
    simp at hm
    subst hm
    simp
  · intro m url hm hp
    unfold movieReply
    rcases hfm : format_movie_message m with ⟨msg, p⟩
    rw [hfm] at hm
    simp at hm
    subst hm
    simp [hp]
  · intro m url hm hp
    unfold movieReply
    rcases hfm : format_movie_message m with ⟨msg, p⟩
    rw [hfm] at hm
    simp at hm
    subst hm
    simp [hp]

/-- Witness for `c4_one_reply_per_record`: one record with a poster and
a succeeding delivery, one record without a poster. -/
theorem c4_one_reply_per_record_witness :
    movieReply 0 (fun _ => true) ⟨none, none, none, none, none, some "/abc.jpg"⟩
      = Reply.photo 0 (imageBaseUrl ++ "/abc.jpg")
          (format_movie_message ⟨none, none, none, none, none, some "/abc.jpg"⟩).1 ∧
    movieReply 0 (fun _ => true) ⟨none, none, none, none, none, none⟩
      = Reply.text 0 (format_movie_message ⟨none, none, none, none, none, none⟩).1 := by
  have h := c4_one_reply_per_record "key" 0 (fun _ => true) []
  exact ⟨h.2.2.1 ⟨none, none, none, none, none, some "/abc.jpg"⟩ (imageBaseUrl ++ "/abc.jpg")
      rfl rfl,
    h.2.1 ⟨none, none, none, none, none, none⟩ rfl⟩

/-! ### C5 -/

/-- C5: dispatching latest, trending or upcoming against a payload
whose results list has `n` entries emits exactly `min 5 n` replies, one
per formatted record and in catalog order; search with a nonempty
results list selects exactly the first result. -/
theorem c5_result_count (apiKey : String) (chat : Nat) (photoOk : MovieRecord → Bool)
    (l : List MovieRecord) (args : List String) (m : MovieRecord) (rest : List MovieRecord) :
    (repliesOf (send_latest_movies apiKey ⟨some ⟨chat⟩, none⟩
        (fun _ _ => some ⟨some l⟩) photoOk).1).length = min 5 l.length ∧
    repliesOf (send_latest_movies apiKey ⟨some ⟨chat⟩, none⟩
        (fun _ _ => some ⟨some l⟩) photoOk).1 = (l.take 5).map (movieReply chat photoOk) ∧
    repliesOf (send_trending_movies apiKey ⟨none, some ⟨chat, "trending"⟩⟩
        (fun _ _ => some ⟨some l⟩) photoOk).1 = (l.take 5).map (movieReply chat photoOk) ∧
    repliesOf (send_upcoming_movies apiKey ⟨none, some ⟨chat, "upcoming"⟩⟩
        (fun _ _ => some ⟨some l⟩) photoOk).1 = (l.take 5).map (movieReply chat photoOk) ∧
    (¬ args = [] →
      repliesOf (search_movie apiKey ⟨some ⟨chat⟩, none⟩ args
          (fun _ _ => some ⟨some (m :: rest)⟩) photoOk).1 = [movieReply chat photoOk m]) := by
  refine ⟨?_, ?_, ?_, ?_, fun ha => ?_⟩
  · simp [send_latest_movies, replyWithMovies]
  · simp [send_latest_movies, replyWithMovies]
  · simp [send_trending_movies, replyWithMovies]
  · simp [send_upcoming_movies, replyWithMovies]
  · match args, ha with
    | a :: as, _ => simp [search_movie]

/-- Witness for `c5_result_count`: a catalog returning 8 results yields
exactly 5 replies, and a search returning results selects the first. -/
theorem c5_result_count_witness :
    (repliesOf (send_latest_movies "key" ⟨some ⟨1⟩, none⟩
        (fun _ _ => some ⟨some (List.replicate 8 ⟨none, none, none, none, none, none⟩)⟩)
        (fun _ => true)).1).length = 5 ∧
    repliesOf (search_movie "key" ⟨some ⟨1⟩, none⟩ ["Dune"]
        (fun _ _ => some ⟨some [⟨some "Dune", none, none, none, none, none⟩]⟩)
        (fun _ => true)).1
      = [movieReply 1 (fun _ => true) ⟨some "Dune", none, none, none, none, none⟩] := by
  have h := c5_result_count "key" 1 (fun _ => true)
    (List.replicate 8 ⟨none, none, none, none, none, none⟩) ["Dune"]
    ⟨some "Dune", none, none, none, none, none⟩ []
  exact ⟨by rw [h.1]; decide, h.2.2.2.2 (by decide)⟩

/-! ### C6 -/

/-- The text component of `format_movie_message` is the template applied
to the defaulted fields, whatever the poster branch. -/
theorem format_fst (m : MovieRecord) :
    (format_movie_message m).1 = messageText (m.title.getD "N/A") (m.release_date.getD "TBA")
      (m.vote_average.getD "N/A") (m.popularity.getD "N/A")
      (truncateOverview (m.overview.getD "No description available.")) := by
  cases hp : m.poster_path <;> simp [format_movie_message, hp]

/-- The image component of `format_movie_message` is the image base URL
concatenated with the poster path, when one exists. -/
theorem format_snd (m : MovieRecord) :
    (format_movie_message m).2 = m.poster_path.map (fun pp => imageBaseUrl ++ pp) := by
  cases hp : m.poster_path <;> simp [format_movie_message, hp]

/-- C6: for an overview longer than 400 characters the formatted body
contains exactly the first 400 characters of the overview followed by
the truncation marker (and the truncated overview is nothing more than
that); an overview of 400 characters or fewer appears unmodified. -/
theorem c6_overview_truncation (m : MovieRecord) (o : String) (h : m.overview = some o) :
    (400 < o.length →
      truncateOverview o = pySlice o 400 ++ truncMarker ∧
      (pySlice o 400).length = 400 ∧
      ∃ a b : String, (format_movie_message m).1 = a ++ (pySlice o 400 ++ truncMarker) ++ b) ∧
    (o.length ≤ 400 →
      truncateOverview o = o ∧
      ∃ a b : String, (format_movie_message m).1 = a ++ o ++ b) := by
  constructor
  · intro hlen
    have ht : truncateOverview o = pySlice o 400 ++ truncMarker := by
      simp [truncateOverview, hlen]
    refine ⟨ht, ?_, ?_⟩
    · have h1 : (pySlice o 400).length = (o.data.take 400).length := rfl
      have h2 : o.data.length = o.length := rfl
      rw [h1, List.length_take]
      omega
    · rw [format_fst, h, Option.getD_some, ht]
      exact ⟨"\n🎬 <b>" ++ m.title.getD "N/A" ++ "</b>\n\n📅 <b>Release Date:</b> " ++
        m.release_date.getD "TBA" ++ "\n⭐ <b>Rating:</b> " ++ m.vote_average.getD "N/A" ++
        "/10\n🔥 <b>Popularity:</b> " ++ m.popularity.getD "N/A" ++
        "\n\n📖 <b>Description:</b>\n", "\n        ", rfl⟩
  · intro hlen
    have ht : truncateOverview o = o := by
      simp [truncateOverview, Nat.not_lt.mpr hlen]
    refine ⟨ht, ?_⟩
    rw [format_fst, h, Option.getD_some, ht]
    exact ⟨"\n🎬 <b>" ++ m.title.getD "N/A" ++ "</b>\n\n📅 <b>Release Date:</b> " ++
      m.release_date.getD "TBA" ++ "\n⭐ <b>Rating:</b> " ++ m.vote_average.getD "N/A" ++
      "/10\n🔥 <b>Popularity:</b> " ++ m.popularity.getD "N/A" ++
      "\n\n📖 <b>Description:</b>\n", "\n        ", rfl⟩

/-- A 401-character overview, one past the truncation boundary. -/
def longOverview : String := String.mk (List.replicate 401 'a')

/-- A 400-character overview, exactly at the truncation boundary. -/
def boundaryOverview : String := String.mk (List.replicate 400 'b')

set_option maxRecDepth 4000 in
/-- Witness for `c6_overview_truncation`: a 401-character overview is
truncated to its first 400 characters plus the marker, while overviews
of 400 and fewer characters pass through unmodified. -/
theorem c6_overview_truncation_witness :
    truncateOverview longOverview = pySlice longOverview 400 ++ truncMarker ∧
    (pySlice longOverview 400).length = 400 ∧
    truncateOverview boundaryOverview = boundaryOverview ∧
    truncateOverview "ok" = "ok" := by
  have h1 := c6_overview_truncation ⟨none, none, none, some longOverview, none, none⟩
    longOverview rfl
  have h2 := c6_overview_truncation ⟨none, none, none, some boundaryOverview, none, none⟩
    boundaryOverview rfl
  have h3 := c6_overview_truncation ⟨none, none, none, some "ok", none, none⟩ "ok" rfl
  have hl : 400 < longOverview.length := by
    have h401 : longOverview.length = 401 := by decide
    omega
  have hb : boundaryOverview.length ≤ 400 := by
    have h400 : boundaryOverview.length = 400 := by decide
    omega
  exact ⟨(h1.1 hl).1, (h1.1 hl).2.1, (h2.2 hb).1, (h3.2 (by decide)).1⟩

/-! ### C7 -/

/-- C7: a search dispatch with no query words emits exactly one reply —
the input prompt — performs no catalog network call, and raises no
exception. -/
theorem c7_empty_search (apiKey : String) (chat : Nat) (net : NetOracle)
    (photoOk : MovieRecord → Bool) (args : List String) (h : args = []) :
    search_movie apiKey ⟨some ⟨chat⟩, none⟩ args net photoOk
      = ([Effect.reply (Reply.text chat searchPrompt)], none) ∧
    repliesOf (search_movie apiKey ⟨some ⟨chat⟩, none⟩ args net photoOk).1
      = [Reply.text chat searchPrompt] ∧
    fetchesOf (search_movie apiKey ⟨some ⟨chat⟩, none⟩ args net photoOk).1 = [] := by
  subst h
  refine ⟨rfl, rfl, rfl⟩

/-- Witness for `c7_empty_search` at chat 9 with an always-failing
network oracle: the prompt is the only effect and nothing is fetched. -/
theorem c7_empty_search_witness :
    search_movie "key" ⟨some ⟨9⟩, none⟩ [] (fun _ _ => none) (fun _ => true)
      = ([Effect.reply (Reply.text 9 searchPrompt)], none) ∧
    fetchesOf (search_movie "key" ⟨some ⟨9⟩, none⟩ [] (fun _ _ => none) (fun _ => true)).1
      = [] := by
  have h := c7_empty_search "key" 9 (fun _ _ => none) (fun _ => true) [] rfl
  exact ⟨h.1, h.2.2⟩

/-! ### C8 -/

/-- An environment with the bot credential set but the catalog
credential absent. -/
def envMissingCatalogKey : String → Option String :=
  fun k => if k = "BOT_TOKEN" then some "token" else none

/-- C8, counterexample to the claim as stated: the webhook entry point
(app.py module init) performs no catalog-credential check — with
`TMDB_API_KEY` absent it still registers every handler, so dispatch can
occur. -/
theorem c8_counterexample :
    envMissingCatalogKey "TMDB_API_KEY" = none ∧
    appInit envMissingCatalogKey = Except.ok setupHandlers ∧
    ¬ setupHandlers = [] :=
  ⟨rfl, rfl, by decide⟩

/-- C8, amended: in the polling entry point (`main` of Bot.py) the
absence (or emptiness) of either mandatory credential means no handler
is registered and hence no dispatch ever occurs; in the webhook entry
point (app.py) only a missing bot credential prevents startup, via the
platform client rejecting the token. -/
theorem c8_main_guard (env : String → Option String)
    (h : pyFalsy (env "BOT_TOKEN") = true ∨ pyFalsy (env "TMDB_API_KEY") = true) :
    mainBot env = [] ∧
    (pyFalsy (env "BOT_TOKEN") = true → appInit env = Except.error PyErr.invalidToken) := by
  constructor
  · rcases h with h | h <;> simp [mainBot, h]
  · intro hb
    simp [appInit, hb]

/-- Witness for `c8_main_guard` at the fully empty environment. -/
theorem c8_main_guard_witness :
    mainBot (fun _ => none) = [] ∧
    appInit (fun _ => none) = Except.error PyErr.invalidToken := by
  have h := c8_main_guard (fun _ => none) (Or.inl (by decide))
  exact ⟨h.1, h.2 (by decide)⟩

/-! ### C9 -/

/-- C9: for a record missing any of its fields, the formatted body
shows each documented default in that field slot — `N/A` as the title,
`TBA` after the release-date label, `N/A` after the rating label (and
before `/10`), `N/A` after the popularity label, the placeholder text
after the description label — and a missing poster reference yields no
image URL; formatting is total and never raises. -/
theorem c9_field_defaults (m : MovieRecord) :
    (m.title = none → ∃ b, (format_movie_message m).1 = "\n🎬 <b>N/A" ++ b) ∧
    (m.release_date = none → ∃ a b, (format_movie_message m).1
        = a ++ "</b>\n\n📅 <b>Release Date:</b> TBA" ++ b) ∧
    (m.vote_average = none → ∃ a b, (format_movie_message m).1
        = a ++ "\n⭐ <b>Rating:</b> N/A" ++ b) ∧
    (m.popularity = none → ∃ a b, (format_movie_message m).1
        = a ++ "/10\n🔥 <b>Popularity:</b> N/A" ++ b) ∧
    (m.overview = none → ∃ a b, (format_movie_message m).1
        = a ++ "\n\n📖 <b>Description:</b>\nNo description available." ++ b) ∧
    (m.poster_path = none → (format_movie_message m).2 = none) := by
  refine ⟨fun h => ?_, fun h => ?_, fun h => ?_, fun h => ?_, fun h => ?_, fun h => ?_⟩
  · rw [format_fst, h, Option.getD_none]
    rw [show ("\n🎬 <b>N/A" : String) = "\n🎬 <b>" ++ "N/A" from by decide]
    refine ⟨"</b>\n\n📅 <b>Release Date:</b> " ++ m.release_date.getD "TBA" ++
      "\n⭐ <b>Rating:</b> " ++ m.vote_average.getD "N/A" ++
      "/10\n🔥 <b>Popularity:</b> " ++ m.popularity.getD "N/A" ++
      "\n\n📖 <b>Description:</b>\n" ++
      truncateOverview (m.overview.getD "No description available.") ++ "\n        ", ?_⟩
    apply String.ext
    simp [messageText, String.data_append, List.append_assoc]
  · rw [format_fst, h, Option.getD_none]
    rw [show ("</b>\n\n📅 <b>Release Date:</b> TBA" : String)
        = "</b>\n\n📅 <b>Release Date:</b> " ++ "TBA" from by decide]
    refine ⟨"\n🎬 <b>" ++ m.title.getD "N/A",
      "\n⭐ <b>Rating:</b> " ++ m.vote_average.getD "N/A" ++
      "/10\n🔥 <b>Popularity:</b> " ++ m.popularity.getD "N/A" ++
      "\n\n📖 <b>Description:</b>\n" ++
      truncateOverview (m.overview.getD "No description available.") ++ "\n        ", ?_⟩
    apply String.ext
    simp [messageText, String.data_append, List.append_assoc]
  · rw [format_fst, h, Option.getD_none]
    rw [show ("\n⭐ <b>Rating:</b> N/A" : String) = "\n⭐ <b>Rating:</b> " ++ "N/A" from by decide]
    refine ⟨"\n🎬 <b>" ++ m.title.getD "N/A" ++ "</b>\n\n📅 <b>Release Date:</b> " ++
      m.release_date.getD "TBA",
      "/10\n🔥 <b>Popularity:</b> " ++ m.popularity.getD "N/A" ++
      "\n\n📖 <b>Description:</b>\n" ++
      truncateOverview (m.overview.getD "No description available.") ++ "\n        ", ?_⟩
    apply String.ext
    simp [messageText, String.data_append, List.append_assoc]
  · rw [format_fst, h, Option.getD_none]
    rw [show ("/10\n🔥 <b>Popularity:</b> N/A" : String)
        = "/10\n🔥 <b>Popularity:</b> " ++ "N/A" from by decide]
    refine ⟨"\n🎬 <b>" ++ m.title.getD "N/A" ++ "</b>\n\n📅 <b>Release Date:</b> " ++
      m.release_date.getD "TBA" ++ "\n⭐ <b>Rating:</b> " ++ m.vote_average.getD "N/A",
      "\n\n📖 <b>Description:</b>\n" ++
      truncateOverview (m.overview.getD "No description available.") ++ "\n        ", ?_⟩
    apply String.ext
    simp [messageText, String.data_append, List.append_assoc]
  · rw [format_fst, h, Option.getD_none,
      show truncateOverview "No description available." = "No description available." from by
        decide]
    rw [show ("\n\n📖 <b>Description:</b>\nNo description available." : String)
        = "\n\n📖 <b>Description:</b>\n" ++ "No description available." from by decide]
    refine ⟨"\n🎬 <b>" ++ m.title.getD "N/A" ++ "</b>\n\n📅 <b>Release Date:</b> " ++
      m.release_date.getD "TBA" ++ "\n⭐ <b>Rating:</b> " ++ m.vote_average.getD "N/A" ++
      "/10\n🔥 <b>Popularity:</b> " ++ m.popularity.getD "N/A", "\n        ", ?_⟩
    apply String.ext
    simp [messageText, String.data_append, List.append_assoc]
  · rw [format_snd, h]
    rfl

/-- Witness for `c9_field_defaults`: the record with every field absent. -/
theorem c9_field_defaults_witness :
    (∃ b, (format_movie_message ⟨none, none, none, none, none, none⟩).1
        = "\n🎬 <b>N/A" ++ b) ∧
    (∃ a b, (format_movie_message ⟨none, none, none, none, none, none⟩).1
        = a ++ "</b>\n\n📅 <b>Release Date:</b> TBA" ++ b) ∧
    (∃ a b, (format_movie_message ⟨none, none, none, none, none, none⟩).1
        = a ++ "\n⭐ <b>Rating:</b> N/A" ++ b) ∧
    (∃ a b, (format_movie_message ⟨none, none, none, none, none, none⟩).1
        = a ++ "/10\n🔥 <b>Popularity:</b> N/A" ++ b) ∧
    (∃ a b, (format_movie_message ⟨none, none, none, none, none, none⟩).1
        = a ++ "\n\n📖 <b>Description:</b>\nNo description available." ++ b) ∧
    (format_movie_message ⟨none, none, none, none, none, none⟩).2 = none := by
  have h := c9_field_defaults ⟨none, none, none, none, none, none⟩
  exact ⟨h.1 rfl, h.2.1 rfl, h.2.2.1 rfl, h.2.2.2.1 rfl, h.2.2.2.2.1 rfl, h.2.2.2.2.2 rfl⟩

/-! ### C10 -/

/-- The formatted body always starts with the movie-title decoration,
so it can never equal the generic error text. -/
theorem messageText_ne_errorText (t rd rt pop ov : String) :
    ¬ messageText t rd rt pop ov = errorText := by
  intro heq
  have hd := congrArg String.data heq
  simp only [messageText, String.data_append] at hd
  simp only [List.cons_append] at hd
  have hh := congrArg List.head? hd
  simp only [List.head?_cons] at hh
  rw [show errorText.data.head? = some '❌' from rfl] at hh
  exact absurd (Option.some.inj hh) (by decide)

/-- A per-movie reply is a text or photo reply carrying the formatted
body. -/
theorem movieReply_eq (chat : Nat) (photoOk : MovieRecord → Bool) (m : MovieRecord) :
    movieReply chat photoOk m = Reply.text chat (format_movie_message m).1 ∨
    ∃ url, movieReply chat photoOk m = Reply.photo chat url (format_movie_message m).1 := by
  unfold movieReply
  rcases hfm : format_movie_message m with ⟨msg, p⟩
  rcases p with _ | url
  · left; rfl
  · cases hok : photoOk m
    · left; simp [hok]
    · right; exact ⟨url, by simp [hok]⟩

/-- No per-movie reply is the generic error reply. -/
theorem movieReply_ne_errorText (chat chat2 : Nat) (photoOk : MovieRecord → Bool)
    (m : MovieRecord) : ¬ movieReply chat photoOk m = Reply.text chat2 errorText := by
  intro heq
  rcases movieReply_eq chat photoOk m with h | ⟨url, h⟩
  · rw [h] at heq
    simp only [Reply.text.injEq] at heq
    refine messageText_ne_errorText (m.title.getD "N/A") (m.release_date.getD "TBA")
      (m.vote_average.getD "N/A") (m.popularity.getD "N/A")
      (truncateOverview (m.overview.getD "No description available.")) ?_
    rw [← format_fst m]
    exact heq.2
  · rw [h] at heq
    exact Reply.noConfusion heq

/-- The shared emission block emits the error reply exactly when the
fetch returned `None` or the payload has no results list. -/
theorem errorReply_mem_replyWithMovies (chat : Nat) (photoOk : MovieRecord → Bool)
    (data : Option Payload) :
    (Reply.text chat errorText ∈ repliesOf (replyWithMovies chat photoOk data)) ↔
      (data = none ∨ data = some ⟨none⟩) := by
  rcases data with _ | ⟨_ | l⟩
  · simp [replyWithMovies]
  · simp [replyWithMovies]
  · simp only [replyWithMovies, repliesOf_map_reply]
    constructor
    · intro hmem
      rcases List.mem_map.mp hmem with ⟨a, _, heq⟩
      exact absurd heq (movieReply_ne_errorText chat chat photoOk a)
    · rintro (h | h) <;> simp at h

/-- C10: a latest/trending/upcoming dispatch whose payload carries an
empty results list emits zero replies — neither movie replies nor the
error reply — and the fetch-failure reply appears in the output exactly
when the fetch returned no payload or the payload lacks a results
list. -/
theorem c10_empty_results (apiKey : String) (chat : Nat) (photoOk : MovieRecord → Bool)
    (res : Option Payload) :
    (res = some ⟨some []⟩ →
      repliesOf (send_latest_movies apiKey ⟨some ⟨chat⟩, none⟩
          (fun _ _ => res) photoOk).1 = [] ∧
      repliesOf (send_trending_movies apiKey ⟨none, some ⟨chat, "trending"⟩⟩
          (fun _ _ => res) photoOk).1 = [] ∧
      repliesOf (send_upcoming_movies apiKey ⟨none, some ⟨chat, "upcoming"⟩⟩
          (fun _ _ => res) photoOk).1 = []) ∧
    ((Reply.text chat errorText ∈ repliesOf (send_latest_movies apiKey ⟨some ⟨chat⟩, none⟩
        (fun _ _ => res) photoOk).1) ↔ (res = none ∨ res = some ⟨none⟩)) ∧
    ((Reply.text chat errorText ∈ repliesOf (send_trending_movies apiKey
        ⟨none, some ⟨chat, "trending"⟩⟩ (fun _ _ => res) photoOk).1)
      ↔ (res = none ∨ res = some ⟨none⟩)) ∧
    ((Reply.text chat errorText ∈ repliesOf (send_upcoming_movies apiKey
        ⟨none, some ⟨chat, "upcoming"⟩⟩ (fun _ _ => res) photoOk).1)
      ↔ (res = none ∨ res = some ⟨none⟩)) := by
  refine ⟨fun h => ?_, ?_, ?_, ?_⟩
  · subst h
    refine ⟨?_, ?_, ?_⟩ <;>
      simp [send_latest_movies, send_trending_movies, send_upcoming_movies, replyWithMovies]
  · have h := errorReply_mem_replyWithMovies chat photoOk res
    simpa [send_latest_movies] using h
  · have h := errorReply_mem_replyWithMovies chat photoOk res
    simpa [send_trending_movies] using h
  · have h := errorReply_mem_replyWithMovies chat photoOk res
    simpa [send_upcoming_movies] using h

/-- Witness for `c10_empty_results`: a payload with an empty results
list produces zero replies on all three dispatches. -/
theorem c10_empty_results_witness :
    repliesOf (send_latest_movies "key" ⟨some ⟨2⟩, none⟩
        (fun _ _ => some ⟨some []⟩) (fun _ => true)).1 = [] ∧
    repliesOf (send_trending_movies "key" ⟨none, some ⟨2, "trending"⟩⟩
        (fun _ _ => some ⟨some []⟩) (fun _ => true)).1 = [] ∧
    repliesOf (send_upcoming_movies "key" ⟨none, some ⟨2, "upcoming"⟩⟩
        (fun _ _ => some ⟨some []⟩) (fun _ => true)).1 = [] :=
  (c10_empty_results "key" 2 (fun _ => true) (some ⟨some []⟩)).1 rfl
